import Mathlib

/-!
Verification of the tool-dispatch contract of the forestai agent backends.

The development shallowly embeds the two dispatchers of the repository:
`GeoAgent` (map-control variant, `agentgoogle/agent.py` + `agentgoogle/tools.py`)
and `HelloWorldAgent` (greeting variant, `agenthelloworld/agent.py`).
Python dictionaries and JSON values are modelled by `JValue`; a raised Python
exception is modelled by the `error` branch of `Except String`; the external
LLM completion provider is modelled as a function from the outbound message
list to `Except String ProviderResponse` (an `error` result models a transport
failure raised by the provider call).
-/

/-- A single quote character, used inside message strings. -/
def squote : String := String.singleton (Char.ofNat 39)

/-- JSON-compatible values: the payloads flowing between the model, the tools
and the HTTP client (Python `Any` restricted to JSON shapes). -/
inductive JValue where
  | null : JValue
  | bool : Bool → JValue
  | num : Rat → JValue
  | str : String → JValue
  | arr : List JValue → JValue
  | obj : List (String × JValue) → JValue

/-- A chat message (`{"role": ..., "content": ...}` dictionaries of the
Python message list). -/
structure Message where
  role : String
  content : String
deriving Repr, DecidableEq

/-- The argument text attached to a tool call by the model:
either text that parses as a JSON object (carrying its parse), or text that
`json.loads` rejects. -/
inductive ArgPayload where
  | wellFormed : List (String × JValue) → ArgPayload
  | malformed : String → ArgPayload

/-- `tool_call.function` of a provider response: a tool name and an optional
raw argument text (`None` modelled by `none`). -/
structure FunctionCall where
  name : String
  arguments : Option ArgPayload

/-- One tool call proposed by the model (`tool_call.function.name`, ...). -/
structure ToolCall where
  function : FunctionCall

/-- The provider response consumed by `ask`: free-text content
(`response.choices[0].message.content`, possibly `None`) and the list of
proposed tool calls (`tool_calls`; Python `None` and `[]` are both falsy and
are modelled by the empty list). -/
structure ProviderResponse where
  content : Option String
  tool_calls : List ToolCall

/-- The keyword-argument dictionary obtained from `json.loads` of the
argument text. -/
abbrev Kwargs := List (String × JValue)

/-- A tool implementation: called as `tool_function(**tool_args)`; a Python
`TypeError` raised by keyword binding is the `error` branch. -/
abbrev ToolImpl := Kwargs → Except String JValue

/-- Look up a keyword argument by name. -/
def kwLookup (args : Kwargs) (k : String) : Option JValue :=
  (args.find? (fun p => p.fst == k)).map Prod.snd

/-- Python keyword binding: a keyword absent from the parameter list raises
`TypeError: got an unexpected keyword argument`. -/
def checkKeys (fname : String) (args : Kwargs) (allowed : List String) :
    Except String Unit :=
  match args.find? (fun p => !(allowed.contains p.fst)) with
  | some p =>
      .error (fname ++ "() got an unexpected keyword argument " ++ squote
        ++ p.fst ++ squote)
  | none => .ok ()

/-- Python keyword binding of a parameter without a default: absence raises
`TypeError: missing a required argument`. -/
def reqArg (fname : String) (args : Kwargs) (k : String) :
    Except String JValue :=
  match kwLookup args k with
  | some v => .ok v
  | none =>
      .error (fname ++ "() missing 1 required positional argument: " ++ squote
        ++ k ++ squote)

/-- Python keyword binding of a parameter with a default value. -/
def optArg (args : Kwargs) (k : String) (dflt : JValue) : JValue :=
  (kwLookup args k).getD dflt

/-- `True` exactly on the `ok` branch. -/
def resultOk : Except String JValue → Bool
  | .ok _ => true
  | .error _ => false

namespace MapTools

/-- `MapTools.fly_to(longitude, latitude, zoom=12)`. -/
def fly_to : ToolImpl := fun args =>
  match checkKeys "fly_to" args ["longitude", "latitude", "zoom"] with
  | .error e => .error e
  | .ok _ =>
    match kwLookup args "longitude" with
    | none => .error ("fly_to() missing 1 required positional argument: "
        ++ squote ++ "longitude" ++ squote)
    | some longitude =>
      match kwLookup args "latitude" with
      | none => .error ("fly_to() missing 1 required positional argument: "
          ++ squote ++ "latitude" ++ squote)
      | some latitude =>
        let zoom := optArg args "zoom" (JValue.num 12)
        .ok (.obj [("action", .str "fly_to"),
          ("payload", .obj [("longitude", longitude), ("latitude", latitude),
            ("zoom", zoom)])])

/-- `MapTools.zoom_to(zoom)`. -/
def zoom_to : ToolImpl := fun args =>
  match checkKeys "zoom_to" args ["zoom"] with
  | .error e => .error e
  | .ok _ =>
    match kwLookup args "zoom" with
    | none => .error ("zoom_to() missing 1 required positional argument: "
        ++ squote ++ "zoom" ++ squote)
    | some zoom =>
      .ok (.obj [("action", .str "zoom_to"),
        ("payload", .obj [("zoom", zoom)])])

/-- `MapTools.add_basemap(name)`. -/
def add_basemap : ToolImpl := fun args =>
  match checkKeys "add_basemap" args ["name"] with
  | .error e => .error e
  | .ok _ =>
    match kwLookup args "name" with
    | none => .error ("add_basemap() missing 1 required positional argument: "
        ++ squote ++ "name" ++ squote)
    | some name =>
      .ok (.obj [("action", .str "add_basemap"),
        ("payload", .obj [("name", name)])])

/-- `MapTools.add_cog_layer(url, name=None, opacity=1.0, bands=None)`. -/
def add_cog_layer : ToolImpl := fun args =>
  match checkKeys "add_cog_layer" args ["url", "name", "opacity", "bands"] with
  | .error e => .error e
  | .ok _ =>
    match kwLookup args "url" with
    | none => .error ("add_cog_layer() missing 1 required positional argument: "
        ++ squote ++ "url" ++ squote)
    | some url =>
      let name := optArg args "name" JValue.null
      let opacity := optArg args "opacity" (JValue.num 1)
      let bands := optArg args "bands" JValue.null
      .ok (.obj [("action", .str "add_cog_layer"),
        ("payload", .obj [("url", url), ("name", name), ("opacity", opacity),
          ("bands", bands)])])

/-- `MapTools.add_vector(data, name=None)`. -/
def add_vector : ToolImpl := fun args =>
  match checkKeys "add_vector" args ["data", "name"] with
  | .error e => .error e
  | .ok _ =>
    match kwLookup args "data" with
    | none => .error ("add_vector() missing 1 required positional argument: "
        ++ squote ++ "data" ++ squote)
    | some data =>
      let name := optArg args "name" JValue.null
      .ok (.obj [("action", .str "add_vector"),
        ("payload", .obj [("data", data), ("name", name)])])

/-- `MapTools.remove_layer(name)`. -/
def remove_layer : ToolImpl := fun args =>
  match checkKeys "remove_layer" args ["name"] with
  | .error e => .error e
  | .ok _ =>
    match kwLookup args "name" with
    | none => .error ("remove_layer() missing 1 required positional argument: "
        ++ squote ++ "name" ++ squote)
    | some name =>
      .ok (.obj [("action", .str "remove_layer"),
        ("payload", .obj [("name", name)])])

/-- `MapTools.get_layer_names()`. -/
def get_layer_names : ToolImpl := fun args =>
  match checkKeys "get_layer_names" args [] with
  | .error e => .error e
  | .ok _ =>
    .ok (.obj [("action", .str "get_layer_names"), ("payload", .obj [])])

/-- `MapTools.set_terrain(exaggeration=1.0)`. -/
def set_terrain : ToolImpl := fun args =>
  match checkKeys "set_terrain" args ["exaggeration"] with
  | .error e => .error e
  | .ok _ =>
    let exaggeration := optArg args "exaggeration" (JValue.num 1)
    .ok (.obj [("action", .str "set_terrain"),
      ("payload", .obj [("exaggeration", exaggeration)])])

/-- `MapTools.remove_terrain()`. -/
def remove_terrain : ToolImpl := fun args =>
  match checkKeys "remove_terrain" args [] with
  | .error e => .error e
  | .ok _ =>
    .ok (.obj [("action", .str "remove_terrain"), ("payload", .obj [])])

/-- `MapTools.set_pitch(pitch)`. -/
def set_pitch : ToolImpl := fun args =>
  match checkKeys "set_pitch" args ["pitch"] with
  | .error e => .error e
  | .ok _ =>
    match kwLookup args "pitch" with
    | none => .error ("set_pitch() missing 1 required positional argument: "
        ++ squote ++ "pitch" ++ squote)
    | some pitch =>
      .ok (.obj [("action", .str "set_pitch"),
        ("payload", .obj [("pitch", pitch)])])

/-- `MapTools.set_opacity(name, opacity)`. -/
def set_opacity : ToolImpl := fun args =>
  match checkKeys "set_opacity" args ["name", "opacity"] with
  | .error e => .error e
  | .ok _ =>
    match kwLookup args "name" with
    | none => .error ("set_opacity() missing 1 required positional argument: "
        ++ squote ++ "name" ++ squote)
    | some name =>
      match kwLookup args "opacity" with
      | none => .error ("set_opacity() missing 1 required positional argument: "
          ++ squote ++ "opacity" ++ squote)
      | some opacity =>
        .ok (.obj [("action", .str "set_opacity"),
          ("payload", .obj [("name", name), ("opacity", opacity)])])

end MapTools

namespace GeoAgent

/-- The tool registry built in `GeoAgent.__init__` (`self.tools`), in source
order. -/
def tools : List (String × ToolImpl) := [
  ("fly_to", MapTools.fly_to),
  ("zoom_to", MapTools.zoom_to),
  ("add_basemap", MapTools.add_basemap),
  ("add_cog_layer", MapTools.add_cog_layer),
  ("add_vector", MapTools.add_vector),
  ("remove_layer", MapTools.remove_layer),
  ("get_layer_names", MapTools.get_layer_names),
  ("set_terrain", MapTools.set_terrain),
  ("remove_terrain", MapTools.remove_terrain),
  ("set_pitch", MapTools.set_pitch),
  ("set_opacity", MapTools.set_opacity)]

/-- Catalog lookup: `self.tools[tool_name]` guarded by
`tool_name in self.tools`. -/
def lookup (tool_name : String) : Option ToolImpl :=
  (tools.find? (fun p => p.fst == tool_name)).map Prod.snd

/-- One entry of `self.tool_specs`: the advertised function name, its
declared properties (name, JSON type) and its `required` list (absent
`required` key modelled by the empty list). -/
structure ToolSpec where
  name : String
  properties : List (String × String)
  required : List String
deriving Repr, DecidableEq

/-- `self.tool_specs` of `GeoAgent.__init__`, in source order. -/
def tool_specs : List ToolSpec := [
  ⟨"zoom_to", [("zoom", "number")], ["zoom"]⟩,
  ⟨"add_cog_layer", [("url", "string")], ["url"]⟩,
  ⟨"fly_to", [("longitude", "number"), ("latitude", "number")],
    ["longitude", "latitude"]⟩,
  ⟨"add_basemap", [("name", "string")], ["name"]⟩,
  ⟨"remove_layer", [("name", "string")], ["name"]⟩,
  ⟨"get_layer_names", [], []⟩,
  ⟨"set_terrain", [("exaggeration", "number")], []⟩,
  ⟨"remove_terrain", [], []⟩,
  ⟨"set_pitch", [("pitch", "number")], ["pitch"]⟩,
  ⟨"set_opacity", [("name", "string"), ("opacity", "number")],
    ["name", "opacity"]⟩,
  ⟨"add_vector", [("data", "string"), ("name", "string")], ["data"]⟩]

/-- The fixed system prompt of `GeoAgent.ask`. -/
def systemPrompt : String :=
  "You are a map control agent. Translate the user" ++ squote
    ++ "s request into a single tool call. Call ONE tool with MINIMAL parameters only."

/-- The outbound message list of `GeoAgent.ask`: start from the system
message, append each history entry in a loop, then append the user message. -/
def buildMessages (query : String) (history : List Message) : List Message :=
  (history.foldl (fun acc m => acc ++ [m]) [⟨"system", systemPrompt⟩])
    ++ [⟨"user", query⟩]

/-- `json.loads(tool_call.function.arguments or "\x7b\x7d")` with the
`except` fallback to the empty dict: a missing or malformed argument text
yields the empty argument set. -/
def parseArgs : Option ArgPayload → Kwargs
  | none => []
  | some (.wellFormed m) => m
  | some (.malformed _) => []

/-- The `"Tool '<name>' not found."` message of both agents. -/
def notFoundMsg (tool_name : String) : String :=
  "Tool " ++ squote ++ tool_name ++ squote ++ " not found."

/-- The error result of the map variant:
`{"action": "error", "payload": {"message": msg}}`. -/
def errorResult (msg : String) : JValue :=
  .obj [("action", .str "error"), ("payload", .obj [("message", .str msg)])]

/-- The `{"action": "chat_response", ...}` result for a reply with no tool
selection; a `None` content becomes JSON `null`. -/
def chatResponse : Option String → JValue
  | none => .obj [("action", .str "chat_response"),
      ("payload", .obj [("message", JValue.null)])]
  | some s => .obj [("action", .str "chat_response"),
      ("payload", .obj [("message", .str s)])]

/-- `GeoAgent.ask(query, history)`. The provider argument models the single
`litellm.completion` call: it receives the outbound message list and either
returns a response or raises (models a transport failure). The body mirrors
the Python `try` block; any `Except.error` escaping it is converted by the
top-level handler into `errorResult`. -/
def ask (provider : List Message → Except String ProviderResponse)
    (query : String) (history : List Message) : JValue :=
  let messages := buildMessages query history
  let attempt : Except String JValue :=
    match provider messages with
    | .error e => .error e
    | .ok response =>
      match response.tool_calls with
      | [] => .ok (chatResponse response.content)
      | tool_call :: _ =>
        let tool_name := tool_call.function.name
        let tool_args := parseArgs tool_call.function.arguments
        match lookup tool_name with
        | some tool_function => tool_function tool_args
        | none => .ok (errorResult (notFoundMsg tool_name))
  match attempt with
  | .ok v => v
  | .error e => errorResult e

/-- Decidable check used for the catalog/schema consistency claim: the
identifier resolves to an implementation, exactly one advertised spec entry
carries the identifier, calling the implementation with exactly the spec's
required parameters succeeds, and dropping any one of them fails. -/
def requiredMatches (tool_name : String) : Bool :=
  match lookup tool_name with
  | none => false
  | some t =>
    let specs := tool_specs.filter (fun s => s.name == tool_name)
    specs.length == 1 &&
    specs.all (fun s =>
      resultOk (t (s.required.map (fun k => (k, JValue.num 0)))) &&
      s.required.all (fun r =>
        !(resultOk (t ((s.required.filter (fun k => !(k == r))).map
          (fun k => (k, JValue.num 0)))))))

end GeoAgent

namespace HelloWorldAgent

/-- Modelled from the spec: the `tools` module imported by
`agenthelloworld/agent.py` (providing `tools.greet`) is not present among the
source files; the spec says only that "The greeting variant exposes one tool,
`greet(name)`". It is modelled as a tool with the single required parameter
`name` returning a greeting string; no claim depends on the returned text. -/
def greet : ToolImpl := fun args =>
  match checkKeys "greet" args ["name"] with
  | .error e => .error e
  | .ok _ =>
    match kwLookup args "name" with
    | none => .error ("greet() missing 1 required positional argument: "
        ++ squote ++ "name" ++ squote)
    | some name =>
      match name with
      | .str s => .ok (.str ("Hello, " ++ s ++ "!"))
      | v => .ok v

/-- The tool registry built in `HelloWorldAgent.__init__`
(`self.tool_functions`). -/
def tool_functions : List (String × ToolImpl) := [("greet", greet)]

/-- Catalog lookup guarded by `tool_name in self.tool_functions`. -/
def lookup (tool_name : String) : Option ToolImpl :=
  (tool_functions.find? (fun p => p.fst == tool_name)).map Prod.snd

/-- The fixed system prompt of `HelloWorldAgent.ask`. -/
def systemPrompt : String :=
  "You are a friendly assistant. Use tools when appropriate; otherwise respond naturally."

/-- The outbound message list of `HelloWorldAgent.ask` (no history). -/
def buildMessages (query : String) : List Message :=
  [⟨"system", systemPrompt⟩, ⟨"user", query⟩]

/-- The `{"response": content}` result for a reply with no tool selection. -/
def plainResponse : Option String → JValue
  | none => .obj [("response", JValue.null)]
  | some s => .obj [("response", .str s)]

/-- `HelloWorldAgent.ask(query)`, mirroring the Python `try` block; the
top-level handler converts an escaping exception into
`{"response": "Error: <message>"}`. -/
def ask (provider : List Message → Except String ProviderResponse)
    (query : String) : JValue :=
  let messages := buildMessages query
  let attempt : Except String JValue :=
    match provider messages with
    | .error e => .error e
    | .ok response =>
      match response.tool_calls with
      | [] => .ok (plainResponse response.content)
      | tool_call :: _ =>
        let tool_name := tool_call.function.name
        let tool_args := GeoAgent.parseArgs tool_call.function.arguments
        match lookup tool_name with
        | some tool_function =>
          match tool_function tool_args with
          | .ok tool_result => .ok (.obj [("response", tool_result)])
          | .error e => .error e
        | none =>
          .ok (.obj [("response",
            .str ("Error: " ++ GeoAgent.notFoundMsg tool_name))])
  match attempt with
  | .ok v => v
  | .error e => .obj [("response", .str ("Error: " ++ e))]

end HelloWorldAgent

/-- A provider stub that always returns the given response, whatever the
message list (models a stubbed completion endpoint). -/
def stubProvider (r : ProviderResponse) :
    List Message → Except String ProviderResponse :=
  fun _ => .ok r

/-- A provider stub that always raises with the given message (models a
transport failure of the completion call). -/
def failProvider (msg : String) :
    List Message → Except String ProviderResponse :=
  fun _ => .error msg

/-- A provider response selecting the named tool with the given argument
payload and no free text. -/
def selecting (tool_name : String) (args : Option ArgPayload) :
    ProviderResponse :=
  ⟨none, [⟨⟨tool_name, args⟩⟩]⟩

/-- `String.append` concatenates the underlying character lists. -/
theorem string_data_append (a b : String) : (a ++ b).data = a.data ++ b.data :=
  rfl

/-- Appending elements one by one with `foldl` appends the whole list (the
Python `for message in history: messages.append(message)` loop). -/
theorem foldl_append_eq_append {α : Type} (l init : List α) :
    l.foldl (fun acc m => acc ++ [m]) init = init ++ l := by
  induction l generalizing init with
  | nil => simp
  | cons x xs ih => simp [List.foldl_cons, ih]

/-- C1: for every provider response that contains no tool selection,
`ask(query, history)` returns a plain-text-shaped result equal to the
provider's free-text content: `{response: <text>}` in the greeting variant
and `{action: "chat_response", payload: {message: <text>}}` in the
map-control variant. -/
theorem c1_no_tool_selection_returns_plain_text
    (geoProvider helloProvider : List Message → Except String ProviderResponse)
    (query : String) (history : List Message) (text : String)
    (hg : geoProvider (GeoAgent.buildMessages query history)
      = .ok ⟨some text, []⟩)
    (hh : helloProvider (HelloWorldAgent.buildMessages query)
      = .ok ⟨some text, []⟩) :
    GeoAgent.ask geoProvider query history
      = .obj [("action", .str "chat_response"),
          ("payload", .obj [("message", .str text)])]
    ∧ HelloWorldAgent.ask helloProvider query
      = .obj [("response", .str text)] := by
  constructor
  · simp only [GeoAgent.ask, hg, GeoAgent.chatResponse]
  · simp only [HelloWorldAgent.ask, hh, HelloWorldAgent.plainResponse]

/-- Witness for C1 at a concrete stubbed provider and query. -/
theorem c1_no_tool_selection_returns_plain_text_witness :
    GeoAgent.ask (stubProvider ⟨some "hi there", []⟩) "what is this map" []
      = .obj [("action", .str "chat_response"),
          ("payload", .obj [("message", .str "hi there")])]
    ∧ HelloWorldAgent.ask (stubProvider ⟨some "hi there", []⟩) "what is this map"
      = .obj [("response", .str "hi there")] :=
  c1_no_tool_selection_returns_plain_text
    (stubProvider ⟨some "hi there", []⟩) (stubProvider ⟨some "hi there", []⟩)
    "what is this map" [] "hi there" rfl rfl

/-- C2: for a provider response selecting the tool `zoom_to` with argument
payload `{"zoom": 5}`, the map-variant `ask` returns exactly
`{action: "zoom_to", payload: {zoom: 5}}`. -/
theorem c2_zoom_to_dispatch (query : String) (history : List Message) :
    GeoAgent.ask
      (stubProvider (selecting "zoom_to"
        (some (.wellFormed [("zoom", .num 5)]))))
      query history
    = .obj [("action", .str "zoom_to"), ("payload", .obj [("zoom", .num 5)])] :=
  rfl

/-- C3: for every provider response selecting a tool identifier absent from
the catalog, `ask` returns (it never raises: it is a total function into
result values) an error result whose message text contains that identifier. -/
theorem c3_unknown_tool_reported
    (tool_name query : String) (history : List Message)
    (hg : GeoAgent.lookup tool_name = none)
    (hh : HelloWorldAgent.lookup tool_name = none) :
    (GeoAgent.ask (stubProvider (selecting tool_name none)) query history
        = GeoAgent.errorResult (GeoAgent.notFoundMsg tool_name)
      ∧ tool_name.data <:+: (GeoAgent.notFoundMsg tool_name).data)
    ∧ (HelloWorldAgent.ask (stubProvider (selecting tool_name none)) query
        = .obj [("response",
            .str ("Error: " ++ GeoAgent.notFoundMsg tool_name))]
      ∧ tool_name.data
          <:+: ("Error: " ++ GeoAgent.notFoundMsg tool_name).data) := by
  refine ⟨⟨?_, ?_⟩, ?_, ?_⟩
  · simp only [GeoAgent.ask, stubProvider, selecting, hg]
  · exact ⟨("Tool " ++ squote).data, (squote ++ " not found.").data, by
      simp [GeoAgent.notFoundMsg, string_data_append, List.append_assoc]⟩
  · simp only [HelloWorldAgent.ask, stubProvider, selecting, hh]
  · exact ⟨("Error: " ++ ("Tool " ++ squote)).data,
      (squote ++ " not found.").data, by
      simp [GeoAgent.notFoundMsg, string_data_append, List.append_assoc]⟩

/-- Witness for C3 at the unregistered identifier `teleport`. -/
theorem c3_unknown_tool_reported_witness :
    (GeoAgent.ask (stubProvider (selecting "teleport" none)) "go" []
        = GeoAgent.errorResult (GeoAgent.notFoundMsg "teleport")
      ∧ "teleport".data <:+: (GeoAgent.notFoundMsg "teleport").data)
    ∧ (HelloWorldAgent.ask (stubProvider (selecting "teleport" none)) "go"
        = .obj [("response",
            .str ("Error: " ++ GeoAgent.notFoundMsg "teleport"))]
      ∧ "teleport".data
          <:+: ("Error: " ++ GeoAgent.notFoundMsg "teleport").data) :=
  c3_unknown_tool_reported "teleport" "go" [] rfl rfl

/-- The key of the first field of a JSON object (empty otherwise). -/
def firstKey : JValue → String
  | .obj ((k, _) :: _) => k
  | _ => ""

/-- C4 counterexample: in the map-control variant a transport failure is
surfaced as `{action: "error", payload: {message: <message>}}`, which is
neither of the two shapes `{error: <message>}` /
`{response: "Error: <message>"}` named by the claim. -/
theorem c4_error_shape_counterexample :
    GeoAgent.ask (failProvider "boom") "zoom in" []
      = .obj [("action", .str "error"),
          ("payload", .obj [("message", .str "boom")])]
    ∧ GeoAgent.ask (failProvider "boom") "zoom in" []
        ≠ .obj [("error", .str "boom")]
    ∧ GeoAgent.ask (failProvider "boom") "zoom in" []
        ≠ .obj [("response", .str "Error: boom")] := by
  refine ⟨rfl, ?_, ?_⟩
  · intro h
    have hk := congrArg firstKey h
    simp only [GeoAgent.ask, failProvider, GeoAgent.errorResult, firstKey]
      at hk
    exact absurd hk (by decide)
  · intro h
    have hk := congrArg firstKey h
    simp only [GeoAgent.ask, failProvider, GeoAgent.errorResult, firstKey]
      at hk
    exact absurd hk (by decide)

/-- C4 (amended): every exception raised between message building, the
provider call and tool invocation is caught at the top level of `ask` and
converted to an error result carrying the exception's message text, with no
retry (the embedding consults the provider exactly once and is total, so
`ask` never raises); a transport/provider failure is surfaced as
`{action: "error", payload: {message: <message>}}` in the map-control
variant and as `{response: "Error: <message>"}` in the greeting variant,
and an exception raised by the invoked tool (here: a missing required
argument) is surfaced the same way. -/
theorem c4_exceptions_become_error_results
    (msg query : String) (history : List Message) :
    GeoAgent.ask (failProvider msg) query history = GeoAgent.errorResult msg
    ∧ HelloWorldAgent.ask (failProvider msg) query
        = .obj [("response", .str ("Error: " ++ msg))]
    ∧ GeoAgent.ask
        (stubProvider (selecting "zoom_to" (some (.wellFormed []))))
        query history
      = GeoAgent.errorResult
          ("zoom_to() missing 1 required positional argument: "
            ++ squote ++ "zoom" ++ squote)
    ∧ HelloWorldAgent.ask
        (stubProvider (selecting "greet" (some (.wellFormed []))))
        query
      = .obj [("response",
          .str ("Error: " ++ ("greet() missing 1 required positional argument: "
            ++ squote ++ "name" ++ squote)))] :=
  ⟨rfl, rfl, rfl, rfl⟩

/-- C5: for every provider response selecting a tool with an argument
payload that is not well-formed JSON (or is missing), `ask` substitutes the
empty argument set and proceeds with the dispatch exactly as if the model
had sent an explicitly empty argument object; the tool is then invoked with
no arguments (the last conjunct shows the dispatch reaching `fly_to`, which
then rejects the empty argument set). -/
theorem c5_malformed_arguments_become_empty
    (tool_name raw query : String) (history : List Message) :
    GeoAgent.ask
        (stubProvider (selecting tool_name (some (.malformed raw))))
        query history
      = GeoAgent.ask
          (stubProvider (selecting tool_name (some (.wellFormed []))))
          query history
    ∧ GeoAgent.ask (stubProvider (selecting tool_name none)) query history
      = GeoAgent.ask
          (stubProvider (selecting tool_name (some (.wellFormed []))))
          query history
    ∧ HelloWorldAgent.ask
        (stubProvider (selecting tool_name (some (.malformed raw)))) query
      = HelloWorldAgent.ask
          (stubProvider (selecting tool_name (some (.wellFormed [])))) query
    ∧ GeoAgent.ask
        (stubProvider (selecting "fly_to" (some (.malformed raw))))
        query history
      = GeoAgent.errorResult
          ("fly_to() missing 1 required positional argument: "
            ++ squote ++ "longitude" ++ squote) :=
  ⟨rfl, rfl, rfl, rfl⟩

/-- C6: for every query string and every history sequence, the outbound
message sequence sent to the completion provider is exactly one fixed
system-prompt message, then the caller-supplied history verbatim and in
order, then one user message carrying the query; moreover the result of
`ask` depends on the provider only through its value at exactly that
message sequence. -/
theorem c6_outbound_message_order (query : String) (history : List Message) :
    GeoAgent.buildMessages query history
      = ⟨"system", GeoAgent.systemPrompt⟩
          :: (history ++ [⟨"user", query⟩])
    ∧ ∀ p₁ p₂ : List Message → Except String ProviderResponse,
        p₁ (GeoAgent.buildMessages query history)
          = p₂ (GeoAgent.buildMessages query history) →
        GeoAgent.ask p₁ query history = GeoAgent.ask p₂ query history := by
  constructor
  · simp [GeoAgent.buildMessages, foldl_append_eq_append]
  · intro p₁ p₂ hp
    simp only [GeoAgent.ask, hp]

/-- Witness for C6: the example history `[user "hi", assistant "hello"]`
with query `"zoom in"`, and two concrete providers agreeing on that
sequence. -/
theorem c6_outbound_message_order_witness :
    GeoAgent.buildMessages "zoom in" [⟨"user", "hi"⟩, ⟨"assistant", "hello"⟩]
      = [⟨"system", GeoAgent.systemPrompt⟩, ⟨"user", "hi"⟩,
          ⟨"assistant", "hello"⟩, ⟨"user", "zoom in"⟩]
    ∧ GeoAgent.ask (stubProvider ⟨some "ok", []⟩) "zoom in"
          [⟨"user", "hi"⟩, ⟨"assistant", "hello"⟩]
        = GeoAgent.ask (stubProvider ⟨some "ok", []⟩) "zoom in"
            [⟨"user", "hi"⟩, ⟨"assistant", "hello"⟩] :=
  ⟨(c6_outbound_message_order "zoom in"
      [⟨"user", "hi"⟩, ⟨"assistant", "hello"⟩]).1,
   (c6_outbound_message_order "zoom in"
      [⟨"user", "hi"⟩, ⟨"assistant", "hello"⟩]).2
      (stubProvider ⟨some "ok", []⟩) (stubProvider ⟨some "ok", []⟩) rfl⟩

/-- C7: for every provider response proposing more than one tool call, `ask`
honors only the first tool call in the list; the remaining tool calls have
no effect on the returned result. -/
theorem c7_only_first_tool_call_honored
    (first : ToolCall) (rest : List ToolCall) (content : Option String)
    (query : String) (history : List Message) :
    GeoAgent.ask (stubProvider ⟨content, first :: rest⟩) query history
      = GeoAgent.ask (stubProvider ⟨content, [first]⟩) query history
    ∧ HelloWorldAgent.ask (stubProvider ⟨content, first :: rest⟩) query
      = HelloWorldAgent.ask (stubProvider ⟨content, [first]⟩) query :=
  ⟨rfl, rfl⟩

/-- C8: the map-control catalog registers exactly the eleven tools
`fly_to(longitude, latitude, zoom=12)`, `zoom_to(zoom)`,
`add_basemap(name)`, `add_cog_layer(url, name?, opacity=1.0, bands?)`,
`add_vector(data, name?)`, `remove_layer(name)`, `get_layer_names()`,
`set_terrain(exaggeration=1.0)`, `remove_terrain()`, `set_pitch(pitch)`,
`set_opacity(name, opacity)`, with those parameter names and defaults, and
each implementation returns `{action: "<tool_name>", payload: {...named
arguments...}}` with the action tag equal to the tool's identifier. -/
theorem c8_catalog_contents :
    GeoAgent.tools.map Prod.fst
      = ["fly_to", "zoom_to", "add_basemap", "add_cog_layer", "add_vector",
         "remove_layer", "get_layer_names", "set_terrain", "remove_terrain",
         "set_pitch", "set_opacity"]
    ∧ (∀ lon lat : JValue,
        MapTools.fly_to [("longitude", lon), ("latitude", lat)]
          = .ok (.obj [("action", .str "fly_to"),
              ("payload", .obj [("longitude", lon), ("latitude", lat),
                ("zoom", .num 12)])]))
    ∧ (∀ lon lat z : JValue,
        MapTools.fly_to [("longitude", lon), ("latitude", lat), ("zoom", z)]
          = .ok (.obj [("action", .str "fly_to"),
              ("payload", .obj [("longitude", lon), ("latitude", lat),
                ("zoom", z)])]))
    ∧ (∀ z : JValue,
        MapTools.zoom_to [("zoom", z)]
          = .ok (.obj [("action", .str "zoom_to"),
              ("payload", .obj [("zoom", z)])]))
    ∧ (∀ n : JValue,
        MapTools.add_basemap [("name", n)]
          = .ok (.obj [("action", .str "add_basemap"),
              ("payload", .obj [("name", n)])]))
    ∧ (∀ u : JValue,
        MapTools.add_cog_layer [("url", u)]
          = .ok (.obj [("action", .str "add_cog_layer"),
              ("payload", .obj [("url", u), ("name", JValue.null),
                ("opacity", .num 1), ("bands", JValue.null)])]))
    ∧ (∀ u n o b : JValue,
        MapTools.add_cog_layer
            [("url", u), ("name", n), ("opacity", o), ("bands", b)]
          = .ok (.obj [("action", .str "add_cog_layer"),
              ("payload", .obj [("url", u), ("name", n), ("opacity", o),
                ("bands", b)])]))
    ∧ (∀ d : JValue,
        MapTools.add_vector [("data", d)]
          = .ok (.obj [("action", .str "add_vector"),
              ("payload", .obj [("data", d), ("name", JValue.null)])]))
    ∧ (∀ d n : JValue,
        MapTools.add_vector [("data", d), ("name", n)]
          = .ok (.obj [("action", .str "add_vector"),
              ("payload", .obj [("data", d), ("name", n)])]))
    ∧ (∀ n : JValue,
        MapTools.remove_layer [("name", n)]
          = .ok (.obj [("action", .str "remove_layer"),
              ("payload", .obj [("name", n)])]))
    ∧ MapTools.get_layer_names []
        = .ok (.obj [("action", .str "get_layer_names"),
            ("payload", .obj [])])
    ∧ MapTools.set_terrain []
        = .ok (.obj [("action", .str "set_terrain"),
            ("payload", .obj [("exaggeration", .num 1)])])
    ∧ (∀ e : JValue,
        MapTools.set_terrain [("exaggeration", e)]
          = .ok (.obj [("action", .str "set_terrain"),
              ("payload", .obj [("exaggeration", e)])]))
    ∧ MapTools.remove_terrain []
        = .ok (.obj [("action", .str "remove_terrain"),
            ("payload", .obj [])])
    ∧ (∀ p : JValue,
        MapTools.set_pitch [("pitch", p)]
          = .ok (.obj [("action", .str "set_pitch"),
              ("payload", .obj [("pitch", p)])]))
    ∧ (∀ n o : JValue,
        MapTools.set_opacity [("name", n), ("opacity", o)]
          = .ok (.obj [("action", .str "set_opacity"),
              ("payload", .obj [("name", n), ("opacity", o)])])) :=
  ⟨rfl, fun _ _ => rfl, fun _ _ _ => rfl, fun _ => rfl, fun _ => rfl,
   fun _ => rfl, fun _ _ _ _ => rfl, fun _ => rfl, fun _ _ => rfl,
   fun _ => rfl, rfl, rfl, fun _ => rfl, rfl, fun _ => rfl, fun _ _ => rfl⟩

/-- C9: for every identifier registered in the map-control tool table, the
lookup yields a non-absent implementation, the advertised schema list
contains exactly one entry for it, and that entry's required-parameter set
matches the required (non-defaulted) parameters of the implementation:
invoking the implementation with exactly the advertised required parameters
succeeds, and dropping any one of them fails. -/
theorem c9_schemas_match_implementations :
    ∀ tool_name ∈ GeoAgent.tools.map Prod.fst,
      GeoAgent.requiredMatches tool_name = true := by decide

/-- Witness for C9 at the registered identifier `zoom_to`. -/
theorem c9_schemas_match_implementations_witness :
    GeoAgent.requiredMatches "zoom_to" = true :=
  c9_schemas_match_implementations "zoom_to" (by decide)

/-- C10 (implicit): in the map-control variant the payload key set of each
tool's result is fixed regardless of which optional arguments the caller
supplies: whenever `add_vector`, `add_cog_layer` or `fly_to` succeeds, the
payload carries exactly its full key list, and optional parameters omitted
at the call site appear bound to `null` (or their default), e.g.
`add_vector(data)` yields payload `{data: <data>, name: null}` and
`add_cog_layer(url)` yields payload
`{url: <url>, name: null, opacity: 1.0, bands: null}`. -/
theorem c10_fixed_payload_keys :
    (∀ (args : Kwargs) (v : JValue), MapTools.add_vector args = .ok v →
      ∃ d n, v = .obj [("action", .str "add_vector"),
        ("payload", .obj [("data", d), ("name", n)])])
    ∧ (∀ (args : Kwargs) (v : JValue), MapTools.add_cog_layer args = .ok v →
        ∃ u n o b, v = .obj [("action", .str "add_cog_layer"),
          ("payload", .obj [("url", u), ("name", n), ("opacity", o),
            ("bands", b)])])
    ∧ (∀ (args : Kwargs) (v : JValue), MapTools.fly_to args = .ok v →
        ∃ lon lat z, v = .obj [("action", .str "fly_to"),
          ("payload", .obj [("longitude", lon), ("latitude", lat),
            ("zoom", z)])])
    ∧ (∀ d : JValue, MapTools.add_vector [("data", d)]
        = .ok (.obj [("action", .str "add_vector"),
            ("payload", .obj [("data", d), ("name", JValue.null)])]))
    ∧ (∀ u : JValue, MapTools.add_cog_layer [("url", u)]
        = .ok (.obj [("action", .str "add_cog_layer"),
            ("payload", .obj [("url", u), ("name", JValue.null),
              ("opacity", .num 1), ("bands", JValue.null)])])) := by
  refine ⟨?_, ?_, ?_, fun _ => rfl, fun _ => rfl⟩
  · intro args v h
    unfold MapTools.add_vector at h
    split at h
    · exact absurd h (by simp)
    · split at h
      · exact absurd h (by simp)
      · injection h with h
        exact ⟨_, _, h.symm⟩
  · intro args v h
    unfold MapTools.add_cog_layer at h
    split at h
    · exact absurd h (by simp)
    · split at h
      · exact absurd h (by simp)
      · injection h with h
        exact ⟨_, _, _, _, h.symm⟩
  · intro args v h
    unfold MapTools.fly_to at h
    split at h
    · exact absurd h (by simp)
    · split at h
      · exact absurd h (by simp)
      · split at h
        · exact absurd h (by simp)
        · injection h with h
          exact ⟨_, _, _, h.symm⟩

/-- Witness for C10: the shape of a concrete successful `add_vector` call. -/
theorem c10_fixed_payload_keys_witness :
    ∃ d n, JValue.obj [("action", .str "add_vector"),
        ("payload", .obj [("data", .str "x"), ("name", JValue.null)])]
      = .obj [("action", .str "add_vector"),
          ("payload", .obj [("data", d), ("name", n)])] :=
  c10_fixed_payload_keys.1 [("data", .str "x")]
    (.obj [("action", .str "add_vector"),
      ("payload", .obj [("data", .str "x"), ("name", JValue.null)])]) rfl
